import Mathlib

/-!
Shallow embedding of the claims-prediction pipeline of the
Claims-Reporting-Automation-System repository.

The embedded code lives in:
  * `app/ml/claims_predictor.py`  — `load_data`, `engineer_features`,
    `prepare_training_data`, `train_model`, `predict_pending`;
  * `app/services/ml_service.py`  — `predict_claims_from_bytes`;
  * `app/services/excel_generator.py` — `generate_reports` (the report path).

Modelling conventions:
  * A parsed CSV (the pandas `DataFrame` produced by `pd.read_csv`) is a
    `Frame`: a header (list of column names) plus one `RawRow` per data row.
    A raw cell is modelled by its parse outcome: `NumCell.num q` for a cell
    `pd.to_numeric` can parse, `NumCell.invalid s` otherwise; likewise
    `DateCell.ts` (carrying the timestamp's day-of-week / month /
    day-of-month attributes and its string form) versus `DateCell.invalid`.
  * Accessing a column (`df['X']`) first requires `X` to be in the header,
    otherwise pandas raises `KeyError` — modelled by `PyError.keyError`.
  * Python exceptions are the inductive `PyError`; fallible steps return
    `Except PyError α`.
  * Currency amounts and probabilities are `ℚ`.
-/

namespace Claims

/-- Python exceptions that the embedded code can raise:
`KeyError` (missing dataframe column, payload = column name),
`ValueError` / `TypeError` / `IndexError` (payload = message). -/
inductive PyError where
  | keyError (col : String)
  | valueError (msg : String)
  | typeError (msg : String)
  | indexError (msg : String)
  deriving DecidableEq, Repr

/-- A numeric CSV cell, modelled by its parse outcome. -/
inductive NumCell where
  | num (q : ℚ)
  | invalid (s : String)
  deriving DecidableEq, Repr

/-- A date CSV cell, modelled by its parse outcome.  A parsed timestamp is
represented by the attributes the pipeline reads from it
(`dt.dayofweek`, `dt.month`, `dt.day`) plus its rendered string. -/
inductive DateCell where
  | ts (dow month day : Nat) (s : String)
  | invalid (s : String)
  deriving DecidableEq, Repr

/-- `True` when the cell parses as a number. -/
def NumCell.isNum : NumCell → Bool
  | .num _ => true
  | .invalid _ => false

/-- Numeric value of a cell; only used after the pipeline has verified the
cell parses (`pd.cut` would otherwise have raised). -/
def NumCell.val : NumCell → ℚ
  | .num q => q
  | .invalid _ => 0

/-- `True` when the cell parses as a calendar date. -/
def DateCell.isTs : DateCell → Bool
  | .ts _ _ _ _ => true
  | .invalid _ => false

def DateCell.dowD : DateCell → Nat
  | .ts d _ _ _ => d
  | .invalid _ => 0

def DateCell.monthD : DateCell → Nat
  | .ts _ m _ _ => m
  | .invalid _ => 0

def DateCell.dayD : DateCell → Nat
  | .ts _ _ d _ => d
  | .invalid _ => 0

def DateCell.str : DateCell → String
  | .ts _ _ _ s => s
  | .invalid s => s

/-- One data row of the uploaded CSV.  The row always carries five cells;
a cell is only reachable by the code when its column name appears in the
frame's header (pandas raises `KeyError` otherwise). -/
structure RawRow where
  claimID : String
  status : String
  amount : NumCell
  date : DateCell
  typ : String
  deriving DecidableEq, Repr

/-- The parsed CSV: header plus data rows (the pandas `DataFrame`). -/
structure Frame where
  header : List String
  rows : List RawRow
  deriving DecidableEq, Repr

/-- The five columns the system's inputs are expected to carry
(`excel_generator.generate_reports` checks exactly this set). -/
def requiredCols : List String :=
  ["ClaimID", "Status", "Amount", "Date", "Type"]

/-- `load_data` (claims_predictor.py lines 12–37): the file-system checks are
outside the data model; `pd.read_csv` yields the frame; an input with zero
data rows raises `ValueError` (`EmptyDataError` for a fully empty file and
the explicit `len(df) == 0` check both surface as `ValueError`). -/
def load_data (f : Frame) : Except PyError Frame :=
  if f.rows.length = 0 then .error (.valueError "No data in file")
  else .ok f

/-- `pd.cut` with `bins=[0, 150, 400, 2000]` and labels Low / Medium / High applied to one amount: half-open bins `(0,150]`, `(150,400]`,
`(400,2000]`; any amount outside them (including `0` itself, since the
lowest edge is not included) gets `NaN`, modelled as `none`. -/
def amountCategory (a : ℚ) : Option String :=
  if 0 < a ∧ a ≤ 150 then some "Low"
  else if 150 < a ∧ a ≤ 400 then some "Medium"
  else if 400 < a ∧ a ≤ 2000 then some "High"
  else none

/-- Insert into a `<`-sorted list of strings (helper for the label
encoder's sorted class list). -/
def insertSorted (s : String) : List String → List String
  | [] => [s]
  | t :: ts => if s < t then s :: t :: ts else t :: insertSorted s ts

def sortStrings : List String → List String
  | [] => []
  | s :: ts => insertSorted s (sortStrings ts)

/-- `LabelEncoder.fit`: the sorted list of distinct observed values
(`numpy.unique`). -/
def classesOf (vs : List String) : List String :=
  sortStrings vs.dedup

/-- `LabelEncoder.transform` of one value: its index in the sorted class
list. -/
def fitEncoder (vs : List String) (v : String) : Nat :=
  (classesOf vs).indexOf v

/-- One engineered record: the raw columns plus the derived columns added by
`engineer_features`. -/
structure FeatRow where
  claimID : String
  status : String
  amount : ℚ
  typ : String
  dateStr : String
  dow : Nat
  month : Nat
  dayOfMonth : Nat
  amountCat : Option String
  typeEnc : Nat
  amountCatEnc : Nat
  deriving DecidableEq, Repr

/-- The per-row body of `engineer_features` once every column-level
validation has passed: derived date parts, amount bucket, and the two
label-encoded columns (encoders fitted on the whole frame). -/
def mkFeatRow (leType : String → Nat) (leCat : String → Nat) (r : RawRow) :
    FeatRow :=
  { claimID := r.claimID
    status := r.status
    amount := r.amount.val
    typ := r.typ
    dateStr := r.date.str
    dow := r.date.dowD
    month := r.date.monthD
    dayOfMonth := r.date.dayD
    amountCat := amountCategory r.amount.val
    typeEnc := leType r.typ
    amountCatEnc := leCat ((amountCategory r.amount.val).getD "") }

/-- `engineer_features` (claims_predictor.py lines 40–68).
Column accesses appear in source order:
the `Date` column (KeyError if absent), `pd.to_datetime` (raises on an
unparsable date — no coercion here), the `Amount` column with `pd.cut`
(KeyError if absent; `TypeError` when the column holds non-numeric cells),
the `Type` column with its encoder (KeyError if absent), the `AmountCategory`
encoder (`LabelEncoder` on a column that contains `NaN` — an amount outside
every bucket — fails with `TypeError`, since `numpy.unique` cannot order
a float NaN against strings), and finally the head-display access of the
columns ClaimID, Status, Amount, Type, AmountCategory
(KeyError when `ClaimID` or `Status` is absent). -/
def engineer_features (f : Frame) : Except PyError (List FeatRow) :=
  if "Date" ∉ f.header then .error (.keyError "Date")
  else match f.rows.find? (fun r => ¬ r.date.isTs) with
  | some r => .error (.valueError ("Unknown datetime string format: " ++ r.date.str))
  | none =>
  if "Amount" ∉ f.header then .error (.keyError "Amount")
  else if ¬ f.rows.all (fun r => r.amount.isNum) then
    .error (.typeError "cut: input array must be numeric")
  else if "Type" ∉ f.header then .error (.keyError "Type")
  else if ¬ (f.rows.map (fun r => amountCategory r.amount.val)).all Option.isSome then
    .error (.typeError "unique: cannot order float NaN against str labels")
  else if "ClaimID" ∉ f.header then .error (.keyError "ClaimID")
  else if "Status" ∉ f.header then .error (.keyError "Status")
  else
    let leType := fitEncoder (f.rows.map (fun r => r.typ))
    let leCat := fitEncoder
      (f.rows.map (fun r => (amountCategory r.amount.val).getD ""))
    .ok (f.rows.map (mkFeatRow leType leCat))

/-- `prepare_training_data` (claims_predictor.py lines 71–91): the resolved
subset (`Status` not equal to Pending) and the pending subset (`Status`
equal to Pending), in that order. -/
def prepare_training_data (rows : List FeatRow) :
    List FeatRow × List FeatRow :=
  (rows.filter (fun r => ¬ r.status = "Pending"),
   rows.filter (fun r => r.status = "Pending"))

/-- The binary target attached to a resolved row:
`1` iff `Status` equals Denied, else `0`. -/
def targetOf (r : FeatRow) : Nat :=
  if r.status = "Denied" then 1 else 0

/-- The six model features of a row, in the order of `feature_cols`. -/
structure Features where
  amount : ℚ
  typeEnc : Nat
  dow : Nat
  month : Nat
  dayOfMonth : Nat
  amountCatEnc : Nat
  deriving DecidableEq, Repr

def FeatRow.features (r : FeatRow) : Features :=
  { amount := r.amount, typeEnc := r.typeEnc, dow := r.dow,
    month := r.month, dayOfMonth := r.dayOfMonth,
    amountCatEnc := r.amountCatEnc }

/-- A decision-tree leaf: the training-sample counts of the two classes
(`0` = not-denied, `1` = denied) that fell into it. -/
structure Leaf where
  n0 : Nat
  n1 : Nat
  deriving DecidableEq, Repr

/-- One fitted decision tree, seen through its prediction interface:
each feature vector reaches a leaf. -/
abbrev Tree := Features → Leaf

/-- A fitted random forest is its list of trees (100 of them in the real
configuration; the claims need only that there is at least one). -/
abbrev Forest := List Tree

/-- Per scikit-learn, a single tree's class-1 probability for a sample is
the fraction of class-1 training samples in the leaf the sample reaches. -/
def Tree.proba1 (t : Tree) (x : Features) : ℚ :=
  let l := t x
  (l.n1 : ℚ) / ((l.n0 : ℚ) + (l.n1 : ℚ))

/-- Class-0 probability of one tree. -/
def Tree.proba0 (t : Tree) (x : Features) : ℚ :=
  let l := t x
  (l.n0 : ℚ) / ((l.n0 : ℚ) + (l.n1 : ℚ))

/-- `model.predict_proba(x)[1]`: the mean of the trees' class-1
probabilities. -/
def Forest.proba1 (m : Forest) (x : Features) : ℚ :=
  (m.map (fun t => t.proba1 x)).sum / (m.length : ℚ)

/-- `model.predict_proba(x)[0]`: the mean of the trees' class-0
probabilities. -/
def Forest.proba0 (m : Forest) (x : Features) : ℚ :=
  (m.map (fun t => t.proba0 x)).sum / (m.length : ℚ)

/-- `model.predict(x)`: scikit-learn classifiers return
`classes_[argmax(predict_proba(x))]`; `numpy.argmax` resolves a tie in
favour of the first index, i.e. class `0`. -/
def Forest.predictClass (m : Forest) (x : Features) : Nat :=
  if Forest.proba0 m x < Forest.proba1 m x then 1 else 0

/-- A forest every leaf of which is nonempty and that has at least one
tree — the shape `RandomForestClassifier.fit` always produces (scikit-learn
never fits an empty leaf, and `n_estimators = 100`). -/
def WellFormedForest (m : Forest) : Prop :=
  m ≠ [] ∧ ∀ t ∈ m, ∀ x, 0 < (t x).n0 + (t x).n1

/-- The fitted classifier as the calling service sees it: the forest
together with `classes_`, the sorted distinct target values present in the
training split.  Under the stratified split (both splits preserve the class
ratio, and the guard below has already ensured every present class has at
least 2 members) the classes present in the training split are exactly the
classes present in `y`. -/
structure FittedModel where
  forest : Forest
  classes : List Nat

/-- `train_model` (claims_predictor.py lines 94–135) first calls
`train_test_split(X, y, test_size=0.3, random_state=42, stratify=y)`
(lines 97–99).  The stratified splitter raises `ValueError` ("The least
populated class in y has only 1 member…") whenever some class present in
`y` has fewer than 2 members; given the earlier guard that `y` has at
least 2 entries, the splitter's remaining size constraints
(`n_train`/`n_test` at least the number of classes) cannot fire — with
both classes of size at least 2 there are at least 4 rows, so the 30%
test share holds at least 2, and with a single class any split of at
least 2 rows works.  It then fits a random forest (100 trees, maximum
depth 5, random_state 42, balanced class weights) and prints (but does
not return) holdout metrics.  The fitting algorithm itself lives in
scikit-learn, outside this repository; with random_state 42 it is a
deterministic function of the training data.  It is modelled as a
deterministic function returning a well-formed forest — the only interface
properties the verified claims rely on; every per-prediction theorem below
is stated for an arbitrary well-formed forest, so nothing depends on the
particular trees this stand-in returns. -/
def train_model (_X : List Features) (y : List Nat) :
    Except PyError FittedModel :=
  if (0 < y.count 0 ∧ y.count 0 < 2) ∨ (0 < y.count 1 ∧ y.count 1 < 2) then
    .error (.valueError
      "The least populated class in y has only 1 member, which is too few. The minimum number of groups for any class cannot be less than 2.")
  else
    .ok { forest := [fun _ => { n0 := y.count 0 + 1, n1 := y.count 1 }]
          classes := (if 0 < y.count 0 then [0] else [])
            ++ (if 0 < y.count 1 then [1] else []) }

/-- One `PredictionResult` row of `predict_pending`'s output
(claims_predictor.py lines 150–153). -/
structure Prediction where
  claimID : String
  amount : ℚ
  typ : String
  date : String
  predictedStatus : String
  denialProbability : ℚ
  confidence : ℚ
  deriving DecidableEq, Repr

/-- `predict_pending` (claims_predictor.py lines 138–161): returns `None`
when the pending subset is empty, otherwise one result per pending row:
the predicted status is Denied when `predict` returns class 1 and Paid
otherwise, the denial probability is column 1 of `predict_proba`, and the
confidence is the row maximum of `predict_proba`. -/
def predict_pending (m : Forest) (pending : List FeatRow) :
    Option (List Prediction) :=
  if pending.isEmpty then none
  else some (pending.map (fun r =>
    { claimID := r.claimID
      amount := r.amount
      typ := r.typ
      date := r.dateStr
      predictedStatus :=
        if Forest.predictClass m r.features = 1 then "Denied" else "Paid"
      denialProbability := Forest.proba1 m r.features
      confidence :=
        max (Forest.proba0 m r.features) (Forest.proba1 m r.features) }))

/-- `predict_pending` as invoked on the fitted model, including the shape
of `predict_proba`: its columns are the fitted `classes_`, so when the
model was fitted on a single class the array has one column, and the
column access on line 152 of claims_predictor.py raises `IndexError`.
The empty-pending early return of line 140 comes first, before any array
is built; with both classes fitted the result is exactly
`predict_pending`. -/
def predict_pending_fitted (m : FittedModel) (pending : List FeatRow) :
    Except PyError (Option (List Prediction)) :=
  if pending.isEmpty then .ok none
  else if m.classes.length < 2 then
    .error (.indexError "index 1 is out of bounds for axis 1 with size 1")
  else .ok (predict_pending m.forest pending)

/-- The JSON-ready result dictionary of `predict_claims_from_bytes`
(ml_service.py lines 59–73).  `accuracy` and `featureImportance` are the
`model_metrics` entries; in `Prediction`, the timestamp is already carried
as its string form, matching the `str(value)` conversion of lines 79–86. -/
structure MLResult where
  totalClaims : Nat
  trainingClaims : Nat
  pendingClaims : Nat
  predictions : List Prediction
  accuracy : Option ℚ
  featureImportance : List (String × ℚ)
  paidCount : Nat
  deniedCount : Nat
  pendingCount : Nat
  deriving DecidableEq, Repr

/-- The result object assembled by `predict_claims_from_bytes` from the
engineered frame and the (possibly absent) predictions
(ml_service.py lines 59–87): totals, status counts, the prediction
records.  `model_metrics` is built literally with accuracy None and an
empty feature-importance mapping (lines 64–67, with the source comment
saying it would need extraction from `train_model`). -/
def buildResult (feats : List FeatRow) (predsOpt : Option (List Prediction)) :
    MLResult :=
  let p := prepare_training_data feats
  let dfTrain := p.1
  let dfPending := p.2
  { totalClaims := feats.length
    trainingClaims := dfTrain.length
    pendingClaims := dfPending.length
    predictions := predsOpt.getD []
    accuracy := none
    featureImportance := []
    paidCount := (dfTrain.filter (fun r => r.status = "Paid")).length
    deniedCount := (dfTrain.filter (fun r => r.status = "Denied")).length
    pendingCount := dfPending.length }

/-- `predict_claims_from_bytes` (ml_service.py lines 18–93): load the CSV,
engineer features, partition, refuse fewer than 2 resolved claims, train
(propagating the stratified-split `ValueError`), predict (propagating the
single-class `IndexError`), package.  The temporary-file plumbing is I/O
outside the data model. -/
def predict_claims_from_bytes (f : Frame) : Except PyError MLResult :=
  match load_data f with
  | .error e => .error e
  | .ok df =>
  match engineer_features df with
  | .error e => .error e
  | .ok feats =>
  if (prepare_training_data feats).1.length < 2 then
    .error (.valueError
      "Insufficient training data. Need at least 2 claims with Paid/Denied status.")
  else
  match train_model ((prepare_training_data feats).1.map FeatRow.features)
      ((prepare_training_data feats).1.map targetOf) with
  | .error e => .error e
  | .ok model =>
  match predict_pending_fitted model (prepare_training_data feats).2 with
  | .error e => .error e
  | .ok predsOpt => .ok (buildResult feats predsOpt)

/-- One detail row of the report path, after the column coercions of
`generate_reports` (excel_generator.py lines 91–92): the amount as coerced
by `pd.to_numeric` in coerce mode followed by `fillna(0.0)`, and the date
as coerced by `pd.to_datetime` in coerce mode (`none` = `NaT`). -/
structure ReportRow where
  claimID : String
  status : String
  amount : ℚ
  date : Option DateCell
  typ : String
  deriving DecidableEq, Repr

/-- `pd.to_numeric` in coerce mode plus `fillna(0.0)` on one cell. -/
def coerceAmount : NumCell → ℚ
  | .num q => q
  | .invalid _ => 0

/-- `pd.to_datetime` in coerce mode on one cell (`none` = `NaT`). -/
def coerceDate : DateCell → Option DateCell
  | .ts dow m d s => some (.ts dow m d s)
  | .invalid _ => none

def coerceRow (r : RawRow) : ReportRow :=
  { claimID := r.claimID, status := r.status,
    amount := coerceAmount r.amount, date := coerceDate r.date, typ := r.typ }

/-- The groupby-status sum of amounts: totals per status, statuses in
sorted order (pandas sorts group keys by default). -/
def groupbySum (pairs : List (String × ℚ)) : List (String × ℚ) :=
  (classesOf (pairs.map (fun p => p.1))).map
    (fun k => (k, ((pairs.filter (fun p => p.1 = k)).map (fun p => p.2)).sum))

/-- `generate_reports` (excel_generator.py lines 73–111), restricted to its
data content: parse the CSV, reject a header missing any required column
with `ValueError`, coerce `Amount` and `Date` cell-wise, and produce the
status→total summary together with the coerced detail rows (the Excel
"Details" sheet rows / summary used by both artifacts).  The spreadsheet
and PDF rendering and the temporary files are I/O outside the data model. -/
def generate_reports (f : Frame) :
    Except PyError (List (String × ℚ) × List ReportRow) :=
  match requiredCols.filter (fun c => c ∉ f.header) with
  | [] =>
    let details := f.rows.map coerceRow
    .ok (groupbySum (details.map (fun r => (r.status, r.amount))), details)
  | missing =>
    .error (.valueError
      ("Missing required columns: " ++ String.intercalate ", " (sortStrings missing)))

/-! ### Concrete inputs used by witnesses and counterexamples -/

deriving instance DecidableEq for Except

deriving instance Inhabited for Prediction

/-- A resolved, paid claim with in-range amount and valid date. -/
def r1 : RawRow :=
  { claimID := "C001", status := "Paid", amount := .num 100,
    date := .ts 0 1 5 "2025-01-05 00:00:00", typ := "Medical" }

/-- A resolved, denied claim. -/
def r2 : RawRow :=
  { claimID := "C002", status := "Denied", amount := .num 300,
    date := .ts 1 1 6 "2025-01-06 00:00:00", typ := "Dental" }

/-- A second paid claim. -/
def r3 : RawRow :=
  { claimID := "C003", status := "Paid", amount := .num 50,
    date := .ts 2 1 7 "2025-01-07 00:00:00", typ := "Medical" }

/-- A pending claim awaiting prediction. -/
def r4 : RawRow :=
  { claimID := "C004", status := "Pending", amount := .num 500,
    date := .ts 3 1 8 "2025-01-08 00:00:00", typ := "Vision" }

/-- A second denied claim, so that the denied class has 2 members and the
stratified split succeeds. -/
def r5 : RawRow :=
  { claimID := "C009", status := "Denied", amount := .num 320,
    date := .ts 4 1 9 "2025-01-09 00:00:00", typ := "Dental" }

/-- A well-formed upload: full header, four resolved rows (2 Paid,
2 Denied — each class populous enough for the stratified split), one
pending. -/
def sampleFrame : Frame :=
  { header := requiredCols, rows := [r1, r2, r3, r5, r4] }

/-- The same rows under a header that lacks the `Type` column. -/
def frameNoType : Frame :=
  { header := ["ClaimID", "Status", "Amount", "Date"], rows := [r1, r2, r3, r4] }

/-- A row whose `Date` cell does not parse as a calendar date. -/
def badDateRow : RawRow :=
  { claimID := "C005", status := "Pending", amount := .num 80,
    date := .invalid "13/45/9999", typ := "Medical" }

/-- A full-header upload containing one unparsable date. -/
def badDateFrame : Frame :=
  { header := requiredCols, rows := [r1, r2, r3, badDateRow] }

/-- A row whose amount `2500` falls outside every `pd.cut` bucket. -/
def bigAmountRow : RawRow :=
  { claimID := "C006", status := "Pending", amount := .num 2500,
    date := .ts 4 1 9 "2025-01-09 00:00:00", typ := "Medical" }

/-- A full-header upload containing an out-of-range amount. -/
def frame2500 : Frame :=
  { header := requiredCols, rows := [r1, r2, r3, bigAmountRow] }

/-- A single resolved claim and no pending claims. -/
def oneRowFrame : Frame := { header := requiredCols, rows := [r1] }

/-- A resolved claim whose status is neither `Paid` nor `Denied`. -/
def cancelledRow : RawRow :=
  { claimID := "C007", status := "Cancelled", amount := .num 200,
    date := .ts 5 1 10 "2025-01-10 00:00:00", typ := "Dental" }

/-- An upload whose resolved set contains a `Cancelled` claim (and 2 Paid
plus 2 Denied claims, so the stratified split succeeds). -/
def cancelledFrame : Frame :=
  { header := requiredCols, rows := [r1, r2, r3, r5, cancelledRow, r4] }

/-- An upload with four resolved claims (2 Paid, 2 Denied) and an empty
pending subset. -/
def noPendingFrame : Frame :=
  { header := requiredCols, rows := [r1, r2, r3, r5] }

/-- Two single-leaf trees voting for opposite classes: the forest's mean
class probabilities are exactly `(1/2, 1/2)`. -/
def tieForest : Forest :=
  [fun _ => { n0 := 1, n1 := 0 }, fun _ => { n0 := 0, n1 := 1 }]

/-- A single-leaf forest whose every prediction is class 1 with
probability 1. -/
def denForest : Forest := [fun _ => { n0 := 0, n1 := 1 }]

/-- An engineered pending row used to exercise `predict_pending`
directly. -/
def tieRow : FeatRow :=
  { claimID := "C008", status := "Pending", amount := 100, typ := "Medical",
    dateStr := "2025-01-05 00:00:00", dow := 0, month := 1, dayOfMonth := 5,
    amountCat := some "Low", typeEnc := 0, amountCatEnc := 0 }

/-! ### Structural lemmas -/

/-- Unpacking a successful `engineer_features` run: every required column is
in the header, every date parsed, every amount is numeric, every bucket is
defined, and the output is the per-row map with the two whole-frame
encoders. -/
theorem engineer_features_ok (f : Frame) (feats : List FeatRow)
    (h : engineer_features f = .ok feats) :
    (∀ c ∈ requiredCols, c ∈ f.header) ∧
    (∀ r ∈ f.rows, r.date.isTs = true) ∧
    (∀ r ∈ f.rows, r.amount.isNum = true) ∧
    (∀ r ∈ f.rows, (amountCategory r.amount.val).isSome = true) ∧
    feats = f.rows.map
      (mkFeatRow (fitEncoder (f.rows.map (fun r => r.typ)))
        (fitEncoder (f.rows.map (fun r => (amountCategory r.amount.val).getD "")))) := by
  unfold engineer_features at h
  split at h
  · exact absurd h (by simp)
  · rename_i hdate
    split at h
    · exact absurd h (by simp)
    · rename_i hfind
      split at h
      · exact absurd h (by simp)
      · rename_i hamt
        split at h
        · exact absurd h (by simp)
        · rename_i hnum
          split at h
          · exact absurd h (by simp)
          · rename_i htyp
            split at h
            · exact absurd h (by simp)
            · rename_i hcat
              split at h
              · exact absurd h (by simp)
              · rename_i hcid
                split at h
                · exact absurd h (by simp)
                · rename_i hstat
                  refine ⟨?_, ?_, ?_, ?_, ?_⟩
                  · intro c hc
                    simp only [requiredCols, List.mem_cons,
                      List.not_mem_nil, or_false] at hc
                    rcases hc with rfl | rfl | rfl | rfl | rfl
                    · exact not_not.mp hcid
                    · exact not_not.mp hstat
                    · exact not_not.mp hamt
                    · exact not_not.mp hdate
                    · exact not_not.mp htyp
                  · intro r hr
                    have := List.find?_eq_none.mp hfind r hr
                    simpa using this
                  · intro r hr
                    have := not_not.mp hnum
                    exact List.all_eq_true.mp (by simpa using this) r hr
                  · intro r hr
                    have := not_not.mp hcat
                    simp only [List.all_eq_true] at this
                    exact this _ (List.mem_map_of_mem _ hr)
                  · injection h with h
                    exact h.symm

/-- A successful `load_data` returns the frame unchanged (and hence had at
least one data row). -/
theorem load_data_ok (f df : Frame) (h : load_data f = .ok df) :
    df = f ∧ f.rows ≠ [] := by
  unfold load_data at h
  split at h
  · exact absurd h (by simp)
  · rename_i hlen
    injection h with h
    exact ⟨h.symm, by simpa [← List.length_eq_zero] using hlen⟩

/-- Unpacking a successful `predict_claims_from_bytes` run: the engineered
rows exist, the resolved subset has at least 2 rows, training and
prediction succeeded, and the result is `buildResult` of the engineered
rows and the produced predictions. -/
theorem pipeline_ok (f : Frame) (r : MLResult)
    (h : predict_claims_from_bytes f = .ok r) :
    ∃ feats predsOpt, engineer_features f = .ok feats ∧
      2 ≤ (prepare_training_data feats).1.length ∧
      (∃ model,
        train_model ((prepare_training_data feats).1.map FeatRow.features)
            ((prepare_training_data feats).1.map targetOf) = .ok model ∧
        predict_pending_fitted model (prepare_training_data feats).2 =
          .ok predsOpt) ∧
      r = buildResult feats predsOpt := by
  unfold predict_claims_from_bytes at h
  split at h
  · exact absurd h (by simp)
  · rename_i df hload
    obtain ⟨rfl, -⟩ := load_data_ok f df hload
    split at h
    · exact absurd h (by simp)
    · rename_i feats heng
      split at h
      · exact absurd h (by simp)
      · rename_i hlen
        split at h
        · exact absurd h (by simp)
        · rename_i model htrain
          split at h
          · exact absurd h (by simp)
          · rename_i predsOpt hpred
            refine ⟨feats, predsOpt, heng, by omega,
              ⟨model, htrain, hpred⟩, ?_⟩
            injection h with h
            exact h.symm

/-- Filtering a list by a predicate and by its negation splits its
length. -/
theorem length_filter_not_add {α : Type} (p : α → Bool) (l : List α) :
    (l.filter (fun x => !(p x))).length + (l.filter p).length = l.length := by
  induction l with
  | nil => rfl
  | cons a t ih => cases h : p a <;> simp [List.filter_cons, h] <;> omega

/-- The resolved and pending subsets partition the engineered rows. -/
theorem prepare_partition (feats : List FeatRow) :
    (prepare_training_data feats).1.length
      + (prepare_training_data feats).2.length = feats.length := by
  unfold prepare_training_data
  simp only [decide_not]
  exact length_filter_not_add (fun r => decide (r.status = "Pending")) feats

/-- Two mutually exclusive boolean predicates count at most the whole
list. -/
theorem countP_pair_le {α : Type} (p q : α → Bool) (l : List α)
    (hd : ∀ x ∈ l, ¬(p x = true ∧ q x = true)) :
    l.countP p + l.countP q ≤ l.length := by
  induction l with
  | nil => simp
  | cons a t ih =>
    have ih2 := ih (fun x hx => hd x (List.mem_cons_of_mem _ hx))
    have ha := hd a (List.mem_cons_self a t)
    by_cases hp : p a = true
    · have hq : ¬ q a = true := fun hq => ha ⟨hp, hq⟩
      simp [List.countP_cons, hp, hq]
      omega
    · by_cases hq : q a = true <;> simp [List.countP_cons, hp, hq] <;> omega

/-- ... and strictly less when some member satisfies neither. -/
theorem countP_pair_lt {α : Type} (p q : α → Bool) (l : List α)
    (hd : ∀ x ∈ l, ¬(p x = true ∧ q x = true))
    (x : α) (hx : x ∈ l) (hpx : p x = false) (hqx : q x = false) :
    l.countP p + l.countP q < l.length := by
  induction l with
  | nil => simp at hx
  | cons a t ih =>
    have hd2 : ∀ y ∈ t, ¬(p y = true ∧ q y = true) :=
      fun y hy => hd y (List.mem_cons_of_mem _ hy)
    rcases List.mem_cons.mp hx with rfl | hxt
    · have hle := countP_pair_le p q t hd2
      simp [List.countP_cons, hpx, hqx]
      omega
    · have hlt := ih hd2 hxt
      have ha := hd a (List.mem_cons_self a t)
      by_cases hp : p a = true
      · have hq : ¬ q a = true := fun hq => ha ⟨hp, hq⟩
        simp [List.countP_cons, hp, hq]
        omega
      · by_cases hq : q a = true <;> simp [List.countP_cons, hp, hq] <;> omega

/-! ### Probability lemmas for well-formed forests -/

/-- For a nonempty leaf, the two per-tree class probabilities sum to 1. -/
theorem tree_proba_sum (t : Tree) (x : Features)
    (h : 0 < (t x).n0 + (t x).n1) : t.proba0 x + t.proba1 x = 1 := by
  unfold Tree.proba0 Tree.proba1
  have hne : ((t x).n0 : ℚ) + ((t x).n1 : ℚ) ≠ 0 := by
    have h2 : (0:ℚ) < (((t x).n0 + (t x).n1 : ℕ) : ℚ) := by exact_mod_cast h
    push_cast at h2
    linarith
  rw [div_add_div_same, div_self hne]

/-- A tree's class-1 probability is nonnegative. -/
theorem tree_proba1_nonneg (t : Tree) (x : Features) : 0 ≤ t.proba1 x := by
  unfold Tree.proba1
  positivity

/-- A tree's class-1 probability is at most 1. -/
theorem tree_proba1_le_one (t : Tree) (x : Features)
    (h : 0 < (t x).n0 + (t x).n1) : t.proba1 x ≤ 1 := by
  unfold Tree.proba1
  have hpos : (0:ℚ) < ((t x).n0 : ℚ) + ((t x).n1 : ℚ) := by
    have h2 : (0:ℚ) < (((t x).n0 + (t x).n1 : ℕ) : ℚ) := by exact_mod_cast h
    push_cast at h2
    linarith
  rw [div_le_one hpos]
  have h0 : (0:ℚ) ≤ ((t x).n0 : ℚ) := by positivity
  linarith

/-- Sums of two pointwise maps combine. -/
theorem list_sum_map_add {α : Type} (f g : α → ℚ) (l : List α) :
    (l.map f).sum + (l.map g).sum = (l.map (fun x => f x + g x)).sum := by
  induction l with
  | nil => simp
  | cons a t ih =>
    simp only [List.map_cons, List.sum_cons]
    linarith

/-- A well-formed forest has positive tree count. -/
theorem forest_length_pos (m : Forest) (hm : WellFormedForest m) :
    (0:ℚ) < (m.length : ℚ) := by
  cases m with
  | nil => exact absurd rfl hm.1
  | cons a t =>
    have : 0 < (a :: t).length := Nat.succ_pos _
    exact_mod_cast this

/-- For a well-formed forest the two mean class probabilities sum to 1. -/
theorem forest_proba_sum (m : Forest) (hm : WellFormedForest m)
    (x : Features) : Forest.proba0 m x + Forest.proba1 m x = 1 := by
  unfold Forest.proba0 Forest.proba1
  rw [div_add_div_same, list_sum_map_add]
  have h1 : m.map (fun t => t.proba0 x + t.proba1 x) = m.map (fun _ => (1:ℚ)) := by
    apply List.map_congr_left
    intro t ht
    exact tree_proba_sum t x (hm.2 t ht x)
  rw [h1]
  have h2 : (m.map (fun _ => (1:ℚ))).sum = (m.length : ℚ) := by
    simp [List.map_const]
  rw [h2]
  exact div_self (ne_of_gt (forest_length_pos m hm))

/-- The forest's denial probability is nonnegative. -/
theorem forest_proba1_nonneg (m : Forest) (x : Features) :
    0 ≤ Forest.proba1 m x := by
  unfold Forest.proba1
  apply div_nonneg
  · apply List.sum_nonneg
    intro q hq
    obtain ⟨t, ht, rfl⟩ := List.mem_map.mp hq
    exact tree_proba1_nonneg t x
  · positivity

/-- The forest's denial probability is at most 1. -/
theorem forest_proba1_le_one (m : Forest) (hm : WellFormedForest m)
    (x : Features) : Forest.proba1 m x ≤ 1 := by
  unfold Forest.proba1
  rw [div_le_one (forest_length_pos m hm)]
  calc (m.map (fun t => t.proba1 x)).sum
      ≤ (m.map (fun t => t.proba1 x)).length • (1:ℚ) := by
        apply List.sum_le_card_nsmul
        intro q hq
        obtain ⟨t, ht, rfl⟩ := List.mem_map.mp hq
        exact tree_proba1_le_one t x (hm.2 t ht x)
    _ = (m.length : ℚ) := by simp

/-- `model.predict` picks class 1 exactly above probability one half; the
`numpy.argmax` tie at exactly one half goes to class 0. -/
theorem predictClass_eq_one_iff (m : Forest) (hm : WellFormedForest m)
    (x : Features) :
    Forest.predictClass m x = 1 ↔ 1/2 < Forest.proba1 m x := by
  unfold Forest.predictClass
  have hsum := forest_proba_sum m hm x
  constructor
  · intro h
    by_cases hlt : Forest.proba0 m x < Forest.proba1 m x
    · linarith
    · simp [hlt] at h
  · intro h
    have hlt : Forest.proba0 m x < Forest.proba1 m x := by linarith
    simp [hlt]

/-- Every output row of `predict_pending` comes from a pending row, with
the three derived fields as the code computes them. -/
theorem predict_pending_mem (m : Forest) (pending : List FeatRow)
    (p : Prediction) (hp : p ∈ (predict_pending m pending).getD []) :
    ∃ r ∈ pending,
      p.predictedStatus =
        (if Forest.predictClass m r.features = 1 then "Denied" else "Paid") ∧
      p.denialProbability = Forest.proba1 m r.features ∧
      p.confidence =
        max (Forest.proba0 m r.features) (Forest.proba1 m r.features) := by
  unfold predict_pending at hp
  by_cases he : pending.isEmpty
  · simp [he] at hp
  · simp only [he, if_false, Option.getD_some] at hp
    obtain ⟨r, hr, rfl⟩ := List.mem_map.mp hp
    exact ⟨r, hr, rfl, rfl, rfl⟩

/-- `mkFeatRow` keeps the raw row's status. -/
theorem mkFeatRow_status (leT leC : String → Nat) (r : RawRow) :
    (mkFeatRow leT leC r).status = r.status := rfl

/-! ### Claim theorems -/

/-- **C1 (counterexample)**: an input missing only the `Type` column does
not yield a `SchemaError`: the prediction pipeline fails with the pandas
KeyError on the Type column raised inside `engineer_features`, after date parsing
and amount bucketing have already run; no schema validation exists in the
prediction path. -/
theorem C1_counterexample :
    predict_claims_from_bytes frameNoType = .error (.keyError "Type") := by
  decide

/-- **C1 (amended)**: for every input whose header misses at least one of
the five required columns, the prediction pipeline does fail — but with a
pandas error during loading or feature engineering, not with a dedicated
`SchemaError` before computation. -/
theorem C1_missing_column_fails (f : Frame)
    (hmiss : ∃ c ∈ requiredCols, c ∉ f.header) :
    (predict_claims_from_bytes f).isOk = false := by
  cases h : predict_claims_from_bytes f with
  | error e => rfl
  | ok r =>
    obtain ⟨feats, -, heng, -, -, -⟩ := pipeline_ok f r h
    obtain ⟨hcols, -, -, -, -⟩ := engineer_features_ok f feats heng
    obtain ⟨c, hc, hnot⟩ := hmiss
    exact absurd (hcols c hc) hnot

/-- Witness for C1 at the concrete missing-`Type` input. -/
theorem C1_missing_column_fails_witness :
    ("Type" ∈ requiredCols ∧ "Type" ∉ frameNoType.header) ∧
      (predict_claims_from_bytes frameNoType).isOk = false :=
  ⟨by decide, C1_missing_column_fails frameNoType ⟨"Type", by decide, by decide⟩⟩

/-- **C2 (counterexample)**: a successful run whose `model_metrics` carry
accuracy None and an empty feature importance — the claim that they
are never absent, `None`, or empty is false. -/
theorem C2_counterexample :
    (predict_claims_from_bytes sampleFrame).map
      (fun r => (r.accuracy, r.featureImportance)) = .ok (none, []) := by
  decide

/-- **C2 (amended)**: on every successful run the returned `model_metrics`
are the hard-coded placeholders: the accuracy is None and
the feature importance is the empty mapping (the real metrics are printed
inside `train_model` but never returned). -/
theorem C2_metrics_placeholder (f : Frame) (r : MLResult)
    (h : predict_claims_from_bytes f = .ok r) :
    r.accuracy = none ∧ r.featureImportance = [] := by
  obtain ⟨feats, predsOpt, -, -, -, rfl⟩ := pipeline_ok f r h
  exact ⟨rfl, rfl⟩

/-- Witness for C2 at `noPendingFrame`. -/
theorem C2_metrics_placeholder_witness :
    (predict_claims_from_bytes noPendingFrame).map
      (fun r => (r.accuracy, r.featureImportance)) = .ok (none, []) := by
  have hok : (predict_claims_from_bytes noPendingFrame).isOk = true := by decide
  cases h : predict_claims_from_bytes noPendingFrame with
  | error e => rw [h] at hok; simp [Except.isOk, Except.toBool] at hok
  | ok r =>
    have h2 := C2_metrics_placeholder noPendingFrame r h
    simp [Except.map, h2.1, h2.2]

/-- **C5**: every successful result satisfies
that the training count plus the pending count equals the total — the resolved and
pending subsets partition the records. -/
theorem C5_partition_completeness (f : Frame) (r : MLResult)
    (h : predict_claims_from_bytes f = .ok r) :
    r.trainingClaims + r.pendingClaims = r.totalClaims := by
  obtain ⟨feats, predsOpt, -, -, -, rfl⟩ := pipeline_ok f r h
  exact prepare_partition feats

/-- Witness for C5 at `sampleFrame`. -/
theorem C5_partition_completeness_witness :
    (predict_claims_from_bytes sampleFrame).map
      (fun r => r.trainingClaims + r.pendingClaims == r.totalClaims) =
      .ok true := by
  have hok : (predict_claims_from_bytes sampleFrame).isOk = true := by decide
  cases h : predict_claims_from_bytes sampleFrame with
  | error e => rw [h] at hok; simp [Except.isOk, Except.toBool] at hok
  | ok r =>
    have h5 := C5_partition_completeness sampleFrame r h
    simp [Except.map, h5]

/-- **C7**: the pipeline is a pure function of the uploaded bytes — all
randomness is fixed (random_state 42 in both the split and the forest),
so two independent runs on the same input return identical results. -/
theorem C7_determinism (f : Frame) :
    predict_claims_from_bytes f = predict_claims_from_bytes f := rfl

/-- **C9 (counterexample)**: an input with an empty pending subset on which
the pipeline does fail — one resolved claim triggers the
insufficient-training-data ValueError, so the statement that the pipeline
never fails on inputs with an empty pending subset is false as stated. -/
theorem C9_counterexample :
    predict_claims_from_bytes oneRowFrame =
      .error (.valueError
        "Insufficient training data. Need at least 2 claims with Paid/Denied status.") := by
  decide

/-- **C9 (amended)**: on every run that does succeed, an empty pending
subset is not an error: the predictions list is explicitly empty and the
totals and summary counts are still produced (with the training count
equal to the total count). -/
theorem C9_empty_pending (f : Frame) (r : MLResult)
    (h : predict_claims_from_bytes f = .ok r)
    (hnp : ∀ row ∈ f.rows, row.status ≠ "Pending") :
    r.predictions = [] ∧ r.pendingClaims = 0 ∧ r.pendingCount = 0 ∧
      r.trainingClaims = r.totalClaims := by
  obtain ⟨feats, predsOpt, heng, -, ⟨model, -, hpred⟩, rfl⟩ :=
    pipeline_ok f r h
  obtain ⟨-, -, -, -, hfeats⟩ := engineer_features_ok f feats heng
  have hpend : (prepare_training_data feats).2 = [] := by
    unfold prepare_training_data
    apply List.filter_eq_nil_iff.mpr
    intro a ha
    rw [hfeats] at ha
    obtain ⟨row, hrow, rfl⟩ := List.mem_map.mp ha
    simpa [mkFeatRow] using hnp row hrow
  have hnone : predsOpt = none := by
    rw [hpend] at hpred
    unfold predict_pending_fitted at hpred
    simp only [List.isEmpty_nil, if_true] at hpred
    injection hpred with hpred
    exact hpred.symm
  have hlen := prepare_partition feats
  rw [hpend] at hlen
  refine ⟨?_, ?_, ?_, ?_⟩
  · show predsOpt.getD [] = []
    rw [hnone]
    rfl
  · show (prepare_training_data feats).2.length = 0
    rw [hpend]
    rfl
  · show (prepare_training_data feats).2.length = 0
    rw [hpend]
    rfl
  · show (prepare_training_data feats).1.length = feats.length
    simpa using hlen

/-- Witness for C9 at `noPendingFrame`. -/
theorem C9_empty_pending_witness :
    (predict_claims_from_bytes noPendingFrame).map
      (fun r => (r.predictions, r.pendingClaims, r.pendingCount)) =
      .ok ([], 0, 0) := by
  have hok : (predict_claims_from_bytes noPendingFrame).isOk = true := by decide
  cases h : predict_claims_from_bytes noPendingFrame with
  | error e => rw [h] at hok; simp [Except.isOk, Except.toBool] at hok
  | ok r =>
    have h9 := C9_empty_pending noPendingFrame r h (by decide)
    simp [Except.map, h9.1, h9.2.1, h9.2.2.1]

/-- **C10**: `paid_count` counts exactly the resolved records with status
Paid and `denied_count` those with status Denied, so the two can only
cover the resolved set, and any resolved record with a third status (such
as Cancelled) makes the sum of the two counts strictly smaller than
`training_claims`. -/
theorem C10_status_counts (f : Frame) (r : MLResult)
    (h : predict_claims_from_bytes f = .ok r) :
    r.paidCount + r.deniedCount ≤ r.trainingClaims ∧
    ((∃ row ∈ f.rows, row.status ≠ "Paid" ∧ row.status ≠ "Denied" ∧
        row.status ≠ "Pending") →
      r.paidCount + r.deniedCount < r.trainingClaims) := by
  obtain ⟨feats, predsOpt, heng, -, -, rfl⟩ := pipeline_ok f r h
  obtain ⟨-, -, -, -, hfeats⟩ := engineer_features_ok f feats heng
  have hdisj : ∀ x ∈ (prepare_training_data feats).1,
      ¬(decide (x.status = "Paid") = true ∧
        decide (x.status = "Denied") = true) := by
    intro x hx hand
    obtain ⟨h1, h2⟩ := hand
    simp only [decide_eq_true_eq] at h1 h2
    rw [h1] at h2
    exact absurd h2 (by decide)
  have hpaid : (buildResult feats predsOpt).paidCount =
      (prepare_training_data feats).1.countP (fun x => decide (x.status = "Paid")) := by
    simp [buildResult, List.countP_eq_length_filter]
  have hden : (buildResult feats predsOpt).deniedCount =
      (prepare_training_data feats).1.countP (fun x => decide (x.status = "Denied")) := by
    simp [buildResult, List.countP_eq_length_filter]
  have htr : (buildResult feats predsOpt).trainingClaims =
      (prepare_training_data feats).1.length := rfl
  constructor
  · rw [hpaid, hden, htr]
    exact countP_pair_le _ _ _ hdisj
  · rintro ⟨row, hrow, hs1, hs2, hs3⟩
    rw [hpaid, hden, htr]
    have hmem0 : mkFeatRow (fitEncoder (f.rows.map (fun r => r.typ)))
        (fitEncoder (f.rows.map (fun r => (amountCategory r.amount.val).getD "")))
        row ∈ (prepare_training_data feats).1 := by
      unfold prepare_training_data
      apply List.mem_filter.mpr
      constructor
      · rw [hfeats]
        exact List.mem_map_of_mem _ hrow
      · simp [mkFeatRow_status, hs3]
    exact countP_pair_lt _ _ _ hdisj _ hmem0
      (by simp [mkFeatRow_status, hs1]) (by simp [mkFeatRow_status, hs2])

/-- Witness for C10 at `cancelledFrame`. -/
theorem C10_status_counts_witness :
    (predict_claims_from_bytes cancelledFrame).map
      (fun r => decide (r.paidCount + r.deniedCount < r.trainingClaims)) =
      .ok true := by
  have hok : (predict_claims_from_bytes cancelledFrame).isOk = true := by decide
  cases h : predict_claims_from_bytes cancelledFrame with
  | error e => rw [h] at hok; simp [Except.isOk, Except.toBool] at hok
  | ok r =>
    have h10 := (C10_status_counts cancelledFrame r h).2
      ⟨cancelledRow, by decide, by decide, by decide, by decide⟩
    simp [Except.map, h10]

/-- `denForest` is well formed. -/
theorem denForest_wf : WellFormedForest denForest := by
  constructor
  · simp [denForest]
  · intro t ht x
    simp only [denForest, List.mem_singleton] at ht
    subst ht
    exact Nat.one_pos

/-- `tieForest` is well formed. -/
theorem tieForest_wf : WellFormedForest tieForest := by
  constructor
  · simp [tieForest]
  · intro t ht x
    simp only [tieForest, List.mem_cons, List.not_mem_nil, or_false] at ht
    rcases ht with rfl | rfl <;> exact Nat.one_pos

/-- **C4 (counterexample)**: a prediction whose denial probability is
exactly `1/2` gets predicted status Paid: `model.predict` is
`argmax` of the mean class probabilities and `numpy.argmax` resolves the
tie toward class 0, so the claimed rule (Denied iff the probability is at least 0.5) fails at
the boundary. -/
theorem C4_counterexample :
    ((predict_pending tieForest [tieRow]).getD []).map
        (fun p => (p.predictedStatus, p.denialProbability)) = [("Paid", 1/2)]
      ∧ ¬ ((1:ℚ)/2 < 1/2) := by
  constructor
  · unfold predict_pending Forest.predictClass Forest.proba0 Forest.proba1
    norm_num [tieForest, tieRow, Tree.proba0, Tree.proba1]
  · norm_num

/-- **C4 (amended)**: for every well-formed fitted forest and every
produced prediction, the predicted status is Denied iff
the denial probability exceeds 0.5; at exactly 0.5 the status is Paid (and
the status is always one of the two). -/
theorem C4_threshold (m : Forest) (hm : WellFormedForest m)
    (pending : List FeatRow) (p : Prediction)
    (hp : p ∈ (predict_pending m pending).getD []) :
    (p.predictedStatus = "Denied" ↔ 1/2 < p.denialProbability) ∧
    (p.predictedStatus = "Denied" ∨ p.predictedStatus = "Paid") := by
  obtain ⟨r, -, hs, hd, -⟩ := predict_pending_mem m pending p hp
  constructor
  · rw [hs, hd]
    by_cases h1 : Forest.predictClass m r.features = 1
    · simp only [h1, if_true]
      simp only [true_iff]
      exact (predictClass_eq_one_iff m hm r.features).mp h1
    · simp only [h1, if_false]
      constructor
      · intro hpd
        exact absurd hpd (by decide)
      · intro hgt
        exact absurd ((predictClass_eq_one_iff m hm r.features).mpr hgt) h1
  · rw [hs]
    by_cases h1 : Forest.predictClass m r.features = 1 <;> simp [h1]

/-- Witness for C4 on the concrete all-denied forest. -/
theorem C4_threshold_witness :
    ((((predict_pending denForest [tieRow]).getD []).headD
        default).predictedStatus = "Denied" ↔
      1/2 < (((predict_pending denForest [tieRow]).getD []).headD
        default).denialProbability) ∧
    ((((predict_pending denForest [tieRow]).getD []).headD
        default).predictedStatus = "Denied" ∨
      (((predict_pending denForest [tieRow]).getD []).headD
        default).predictedStatus = "Paid") := by
  apply C4_threshold denForest denForest_wf [tieRow]
  show _ ∈ (predict_pending denForest [tieRow]).getD []
  unfold predict_pending
  simp

/-- **C6**: every produced prediction has a denial probability in `[0,1]`
and `Confidence = max(DenialProbability, 1 − DenialProbability)`, hence
confidence lies in `[1/2, 1]`. -/
theorem C6_probability_range (m : Forest) (hm : WellFormedForest m)
    (pending : List FeatRow) (p : Prediction)
    (hp : p ∈ (predict_pending m pending).getD []) :
    0 ≤ p.denialProbability ∧ p.denialProbability ≤ 1 ∧
    p.confidence = max p.denialProbability (1 - p.denialProbability) ∧
    1/2 ≤ p.confidence ∧ p.confidence ≤ 1 := by
  obtain ⟨r, -, -, hd, hc⟩ := predict_pending_mem m pending p hp
  have hsum := forest_proba_sum m hm r.features
  have h0 := forest_proba1_nonneg m r.features
  have h1 := forest_proba1_le_one m hm r.features
  have hp0 : Forest.proba0 m r.features =
      1 - Forest.proba1 m r.features := by linarith
  rw [hd, hc, hp0]
  refine ⟨h0, h1, max_comm _ _, ?_, ?_⟩
  · rcases le_total (Forest.proba1 m r.features) (1/2) with hle | hle
    · exact le_max_of_le_left (by linarith)
    · exact le_max_of_le_right hle
  · apply max_le <;> linarith

/-- Witness for C6 on the concrete tie forest (probability exactly
one half, confidence one half). -/
theorem C6_probability_range_witness :
    0 ≤ (((predict_pending tieForest [tieRow]).getD []).headD
        default).denialProbability ∧
    (((predict_pending tieForest [tieRow]).getD []).headD
        default).denialProbability ≤ 1 ∧
    (((predict_pending tieForest [tieRow]).getD []).headD
        default).confidence =
      max (((predict_pending tieForest [tieRow]).getD []).headD
        default).denialProbability
        (1 - (((predict_pending tieForest [tieRow]).getD []).headD
          default).denialProbability) ∧
    1/2 ≤ (((predict_pending tieForest [tieRow]).getD []).headD
        default).confidence ∧
    (((predict_pending tieForest [tieRow]).getD []).headD
        default).confidence ≤ 1 := by
  apply C6_probability_range tieForest tieForest_wf [tieRow]
  show _ ∈ (predict_pending tieForest [tieRow]).getD []
  unfold predict_pending
  simp

/-- **C8 (counterexample)**: amounts `2500` (outside `[0,2000]`) and `0`
(inside `[0,2000]` but outside every half-open bucket) both get an
undefined category, and an input containing such an amount is neither
rejected up front nor clamped: the undefined category reaches the
`AmountCategory` label encoder, whose invocation fails with a
`TypeError`. -/
theorem C8_counterexample :
    amountCategory 2500 = none ∧ amountCategory 0 = none ∧
      predict_claims_from_bytes frame2500 =
        .error (.typeError
          "unique: cannot order float NaN against str labels") :=
  ⟨by decide, by decide, by decide⟩

/-- **C8 (amended)**: `AmountCategory` is a pure function of `Amount`
under the fixed edges `(0,150]`, `(150,400]`, `(400,2000]`; every amount
outside `(0,2000]` (including `0` itself) yields an undefined (`NaN`)
category, and the pipeline neither rejects nor clamps such a record up
front — the undefined category is carried into the encoding step, which
then makes the whole run fail. -/
theorem C8_amount_buckets :
    (∀ a : ℚ,
      (amountCategory a = some "Low" ↔ 0 < a ∧ a ≤ 150) ∧
      (amountCategory a = some "Medium" ↔ 150 < a ∧ a ≤ 400) ∧
      (amountCategory a = some "High" ↔ 400 < a ∧ a ≤ 2000) ∧
      (amountCategory a = none ↔ a ≤ 0 ∨ 2000 < a)) ∧
    (∀ f : Frame,
      (∃ row ∈ f.rows, row.amount.isNum = true ∧
        amountCategory row.amount.val = none) →
      (predict_claims_from_bytes f).isOk = false) := by
  constructor
  · intro a
    unfold amountCategory
    by_cases h1 : 0 < a ∧ a ≤ 150
    · rw [if_pos h1]
      obtain ⟨h1a, h1b⟩ := h1
      refine ⟨⟨fun _ => ⟨h1a, h1b⟩, fun _ => rfl⟩, ?_, ?_, ?_⟩
      · exact ⟨fun hx => absurd hx (by decide),
          fun hx => absurd h1b (not_le.mpr hx.1)⟩
      · exact ⟨fun hx => absurd hx (by decide),
          fun hx => absurd h1b
            (not_le.mpr (lt_trans (by norm_num) hx.1))⟩
      · refine ⟨fun hx => absurd hx (by decide), fun hx => ?_⟩
        rcases hx with hx | hx
        · exact absurd h1a (not_lt.mpr hx)
        · exact absurd h1b (not_le.mpr (lt_trans (by norm_num) hx))
    · rw [if_neg h1]
      by_cases h2 : 150 < a ∧ a ≤ 400
      · rw [if_pos h2]
        obtain ⟨h2a, h2b⟩ := h2
        refine ⟨?_, ⟨fun _ => ⟨h2a, h2b⟩, fun _ => rfl⟩, ?_, ?_⟩
        · exact ⟨fun hx => absurd hx (by decide),
            fun hx => absurd hx.2 (not_le.mpr h2a)⟩
        · exact ⟨fun hx => absurd hx (by decide),
            fun hx => absurd h2b (not_le.mpr hx.1)⟩
        · refine ⟨fun hx => absurd hx (by decide), fun hx => ?_⟩
          rcases hx with hx | hx
          · exact absurd hx
              (not_le.mpr (lt_trans (by norm_num) h2a))
          · exact absurd h2b
              (not_le.mpr (lt_trans (by norm_num) hx))
      · rw [if_neg h2]
        by_cases h3 : 400 < a ∧ a ≤ 2000
        · rw [if_pos h3]
          obtain ⟨h3a, h3b⟩ := h3
          refine ⟨?_, ?_, ⟨fun _ => ⟨h3a, h3b⟩, fun _ => rfl⟩, ?_⟩
          · exact ⟨fun hx => absurd hx (by decide),
              fun hx => absurd hx.2
                (not_le.mpr (lt_trans (by norm_num) h3a))⟩
          · exact ⟨fun hx => absurd hx (by decide),
              fun hx => absurd hx.2 (not_le.mpr h3a)⟩
          · refine ⟨fun hx => absurd hx (by decide), fun hx => ?_⟩
            rcases hx with hx | hx
            · exact absurd hx
                (not_le.mpr (lt_trans (by norm_num) h3a))
            · exact absurd h3b (not_le.mpr hx)
        · rw [if_neg h3]
          push_neg at h1 h2 h3
          refine ⟨?_, ?_, ?_, ?_⟩
          · exact ⟨fun hx => absurd hx (by decide),
              fun hx => absurd hx.2 (not_le.mpr (h1 hx.1))⟩
          · exact ⟨fun hx => absurd hx (by decide),
              fun hx => absurd hx.2 (not_le.mpr (h2 hx.1))⟩
          · exact ⟨fun hx => absurd hx (by decide),
              fun hx => absurd hx.2 (not_le.mpr (h3 hx.1))⟩
          · refine ⟨fun _ => ?_, fun _ => rfl⟩
            rcases le_or_lt a 0 with hle | hlt
            · exact Or.inl hle
            · exact Or.inr (h3 (h2 (h1 hlt)))
  · rintro f ⟨row, hrow, hnum, hcat⟩
    cases h : predict_claims_from_bytes f with
    | error e => rfl
    | ok r =>
      obtain ⟨feats, -, heng, -, -, -⟩ := pipeline_ok f r h
      obtain ⟨-, -, -, hcats, -⟩ := engineer_features_ok f feats heng
      have hx := hcats row hrow
      rw [hcat] at hx
      exact absurd hx (by decide)

/-- Witness for C8: an in-bucket amount is categorised `Low`, and the
concrete out-of-range input makes the run fail. -/
theorem C8_amount_buckets_witness :
    amountCategory 100 = some "Low" ∧
      (predict_claims_from_bytes frame2500).isOk = false :=
  ⟨((C8_amount_buckets.1 100).1).mpr (by norm_num),
   C8_amount_buckets.2 frame2500 ⟨bigAmountRow, by decide, by decide, by decide⟩⟩

/-- Along a zip of a list with its own map, the second component is the
image of the first. -/
theorem zip_map_snd {α β : Type} (g : α → β) :
    ∀ (l : List α) (pr : α × β), pr ∈ l.zip (l.map g) → pr.2 = g pr.1 := by
  intro l
  induction l with
  | nil => intro pr h; simp at h
  | cons a t ih =>
    intro pr h
    simp only [List.map_cons, List.zip_cons_cons, List.mem_cons] at h
    rcases h with rfl | h
    · rfl
    · exact ih pr h

/-- **C3 (counterexample)**: in the prediction pipeline an unparsable
`Date` is not coerced: `engineer_features` calls `pd.to_datetime` without
coercion, so the run fails instead of keeping the row. -/
theorem C3_counterexample :
    predict_claims_from_bytes badDateFrame =
      .error (.valueError "Unknown datetime string format: 13/45/9999") := by
  decide

/-- **C3 (amended)**: the sentinel-coercion policy (amount to 0.0,
date to NaT) lives in the report path: `generate_reports` succeeds on any
full-header input, keeps every row, and coerces unparsable cells; the
prediction pipeline instead fails whenever any row has an unparsable
`Date` or a non-numeric `Amount`. -/
theorem C3_coercion_location :
    (∀ f : Frame, (∀ c ∈ requiredCols, c ∈ f.header) →
      ∃ s details, generate_reports f = .ok (s, details) ∧
        details.length = f.rows.length ∧
        ∀ pr ∈ f.rows.zip details,
          (pr.1.amount.isNum = false → pr.2.amount = 0) ∧
          (pr.1.date.isTs = false → pr.2.date = none)) ∧
    (∀ f : Frame,
      (∃ row ∈ f.rows, row.date.isTs = false ∨ row.amount.isNum = false) →
      (predict_claims_from_bytes f).isOk = false) := by
  constructor
  · intro f hcols
    have hfil : requiredCols.filter (fun c => c ∉ f.header) = [] := by
      apply List.filter_eq_nil_iff.mpr
      intro c hc
      simp [hcols c hc]
    refine ⟨groupbySum ((f.rows.map coerceRow).map
        (fun r => (r.status, r.amount))),
      f.rows.map coerceRow, ?_, by simp, ?_⟩
    · unfold generate_reports
      rw [hfil]
    · intro pr hpr
      have h2 := zip_map_snd coerceRow f.rows pr hpr
      constructor
      · intro hbad
        rw [h2]
        cases hamt : pr.1.amount with
        | num q => rw [hamt] at hbad; simp [NumCell.isNum] at hbad
        | invalid s => simp [coerceRow, coerceAmount, hamt]
      · intro hbad
        rw [h2]
        cases hdt : pr.1.date with
        | ts dow m d str => rw [hdt] at hbad; simp [DateCell.isTs] at hbad
        | invalid s => simp [coerceRow, coerceDate, hdt]
  · rintro f ⟨row, hrow, hbad⟩
    cases h : predict_claims_from_bytes f with
    | error e => rfl
    | ok r =>
      obtain ⟨feats, -, heng, -, -, -⟩ := pipeline_ok f r h
      obtain ⟨-, hdates, hnums, -, -⟩ := engineer_features_ok f feats heng
      rcases hbad with hd | ha
      · rw [hdates row hrow] at hd
        exact absurd hd (by decide)
      · rw [hnums row hrow] at ha
        exact absurd ha (by decide)

/-- Witness for C3: the report path succeeds on the bad-date input while
the prediction pipeline fails on it. -/
theorem C3_coercion_location_witness :
    (generate_reports badDateFrame).isOk = true ∧
      (predict_claims_from_bytes badDateFrame).isOk = false := by
  constructor
  · obtain ⟨s, d, hsd, -, -⟩ := C3_coercion_location.1 badDateFrame (by decide)
    rw [hsd]
    rfl
  · exact C3_coercion_location.2 badDateFrame
      ⟨badDateRow, by decide, Or.inl (by decide)⟩

end Claims
